import Mathlib

/-!
Verification development for the `with-robot-4th-lab` planner core.

The definitions below are a shallow embedding of the pipeline execution
engine of the repository:

* `src/agent/src/common/errors.py`  — structured error records,
* `src/agent/src/common/enums.py`   — model-name enumeration,
* `src/agent/src/runner/graph.py`   — chain resources, header handling,
  temperature policy, client construction, node execution,
* `src/agent/src/runner/runner.py`  — the `GraphRunner` class (client
  cache, retriever swapping, lazy graph construction).

Conventions used throughout the embedding:

* Python dictionaries are represented as association lists with
  insert-or-replace (`setKV`) and first-match lookup (`lookupKV`);
  Python dict assignment replaces the value of an existing key in place
  and otherwise appends a fresh entry, which `setKV` mirrors.
* Python floats (the `temperature` field) are modelled as `Rat`: the
  program only stores them, compares them for equality with `0.0`/`1.0`
  and uses them in dictionary keys, so exact rationals are a faithful
  carrier for every value the program manipulates.
* Exceptions become `Except` results.  Taxonomy errors
  (`BaseServiceError` subclasses) carry an explicit `ErrorRecord`;
  exceptions foreign to the taxonomy (lang-chain
  `OutputParserException`, Python `KeyError` from template rendering,
  Python `ValueError` from `int()`) are separate constructors so that
  the two kinds cannot be confused.
* External collaborators (the OpenAI transport, the pydantic parser of a
  concrete schema) are parameters: the transport is a function from the
  rendered prompt to an `LLMOutcome`, and a pydantic parser is a
  function from raw text to an optional parsed value.
-/

/-! ## Association lists (Python `dict` semantics) -/

/-- First-match lookup in an association list, mirroring Python `d.get(k)`. -/
def lookupKV {α : Type} {β : Type} [DecidableEq α] : List (α × β) → α → Option β
  | [], _ => none
  | (k', v') :: rest, k => if k' = k then some v' else lookupKV rest k

/-- Insert-or-replace, mirroring Python `d[k] = v`: an existing key keeps its
position and gets the new value, a fresh key is appended at the end. -/
def setKV {α : Type} {β : Type} [DecidableEq α] : List (α × β) → α → β → List (α × β)
  | [], k, v => [(k, v)]
  | (k', v') :: rest, k, v =>
    if k' = k then (k, v) :: rest else (k', v') :: setKV rest k v

/-! ## Planning-state values

State values threaded through the LangGraph pipeline
(`src/agent/src/runner/state.py`): strings, integers, lists, plain
mappings, pydantic model instances (before `model_dump`) and raw model
messages (the object stored by a `skip_parser` node). -/

inductive Value : Type where
  | str : String → Value
  | int : Int → Value
  | list : List Value → Value
  | map : List (String × Value) → Value
  | pyd : List (String × Value) → Value
  | msg : String → Value

/-- The mutable planning state: a Python dict from key to value. -/
abbrev PState := List (String × Value)

/-- The inputs mapping handed to a chain (`Dict[str, Any]`). -/
abbrev Inputs := List (String × Value)

/-! ## Error records (`src/agent/src/common/errors.py`) -/

/-- A serializable detail value as stored in `BaseServiceError.details`. -/
inductive DVal : Type where
  | s : String → DVal
  | n : Int → DVal
  | null : DVal
  | m : List (String × DVal) → DVal

/-- The class-level defaults of a `BaseServiceError` subclass. -/
structure ErrClass where
  defaultCode : String
  defaultStatus : Nat
  defaultDomain : String

/-- The four structured fields plus message carried by every taxonomy
error (`BaseServiceError.__init__`, errors.py lines 23-37). -/
structure ErrorRecord where
  message : String
  code : String
  status : Nat
  domain : String
  details : List (String × DVal)

/-- `BaseServiceError.__init__`: each field falls back to the class
default when the argument is absent or Python-falsy (`code or
self.default_code` and so on); `details` defaults to the empty dict. -/
def mkBaseServiceError (cls : ErrClass) (message : String)
    (code : Option String) (status : Option Nat) (domain : Option String)
    (details : Option (List (String × DVal))) : ErrorRecord :=
  { message := message
    code := match code with
      | some c => if c = "" then cls.defaultCode else c
      | none => cls.defaultCode
    status := match status with
      | some s => if s = 0 then cls.defaultStatus else s
      | none => cls.defaultStatus
    domain := match domain with
      | some d => if d = "" then cls.defaultDomain else d
      | none => cls.defaultDomain
    details := match details with
      | some d => if d.isEmpty then [] else d
      | none => [] }

def BaseServiceErrorClass : ErrClass := ⟨"UNKNOWN", 500, "core"⟩

/-- `ParsingError` (errors.py lines 63-67): defined with default status
422, but — as proved below — never raised by the chain runner. -/
def ParsingErrorClass : ErrClass := ⟨"PARSING_ERROR", 422, "core"⟩

/-- `LLMError` (errors.py lines 70-74). -/
def LLMErrorClass : ErrClass := ⟨"LLM_ERROR", 502, "core"⟩

/-- `RateLimitExceededError` (errors.py lines 77-81). -/
def RateLimitExceededErrorClass : ErrClass := ⟨"RATE_LIMIT_EXCEEDED", 429, "core"⟩

/-- `GraphInitializeError` (errors.py lines 105-109). -/
def GraphInitializeErrorClass : ErrClass := ⟨"GRAPH_INITIALIZE_ERROR", 500, "core"⟩

/-! ## Model names and temperature policy -/

/-- `ModelNames` (`src/agent/src/common/enums.py`). -/
inductive ModelNames : Type where
  | gpt41
  | gpt41mini
  | gpt5
  | gpt5mini
  | gpt5nano
  | gpt4omini
  | gpt4o
  deriving DecidableEq, Repr

/-- The `.value` of each enum member. -/
def ModelNames.value : ModelNames → String
  | .gpt41 => "gpt-4.1"
  | .gpt41mini => "gpt-4.1-mini"
  | .gpt5 => "gpt-5"
  | .gpt5mini => "gpt-5-mini"
  | .gpt5nano => "gpt-5-nano"
  | .gpt4omini => "gpt-4o-mini"
  | .gpt4o => "gpt-4o"

/-- Lookup by enum value, modelling `ModelNames(model_name)`. -/
def ModelNames.fromValue (s : String) : Option ModelNames :=
  if s = "gpt-4.1" then some .gpt41
  else if s = "gpt-4.1-mini" then some .gpt41mini
  else if s = "gpt-5" then some .gpt5
  else if s = "gpt-5-mini" then some .gpt5mini
  else if s = "gpt-5-nano" then some .gpt5nano
  else if s = "gpt-4o-mini" then some .gpt4omini
  else if s = "gpt-4o" then some .gpt4o
  else none

/-- Lookup by enum key, modelling `ModelNames[model_name]`. -/
def ModelNames.fromKey (s : String) : Option ModelNames :=
  if s = "gpt41" then some .gpt41
  else if s = "gpt41mini" then some .gpt41mini
  else if s = "gpt5" then some .gpt5
  else if s = "gpt5mini" then some .gpt5mini
  else if s = "gpt5nano" then some .gpt5nano
  else if s = "gpt4omini" then some .gpt4omini
  else if s = "gpt4o" then some .gpt4o
  else none

/-- `_DEFAULT_TEMPERATURE_ONLY_MODELS` (graph.py lines 25-29). -/
def defaultTemperatureOnlyModels : List ModelNames :=
  [.gpt5, .gpt5mini, .gpt5nano]

/-- `_resolve_temperature` (graph.py lines 90-103).  Returns the resolved
temperature together with a flag recording whether the warning branch was
taken (`temperature not in (1, 1.0)`; `1` and `1.0` coincide in `Rat`).
The function never fails: an explicit temperature on a restricted model
is dropped after at most a log warning. -/
def resolveTemperature (modelName : ModelNames) (temperature : Option Rat) :
    Option Rat × Bool :=
  match temperature with
  | none => (none, false)
  | some t =>
    if modelName ∈ defaultTemperatureOnlyModels then
      (none, if t = 1 then false else true)
    else (some t, false)

/-! ## Model clients (`create_llm`, graph.py lines 235-261) -/

/-- The keyword arguments with which `ChatOpenAI` is instantiated
(graph.py lines 246-255). -/
structure ChatOpenAIKwargs where
  model : String
  includeResponseHeaders : Bool
  maxRetries : Nat
  timeout : Rat
  temperature : Option Rat
  extraBody : Option (List (String × String))
  deriving DecidableEq, Repr

/-- A constructed model client: its construction arguments plus the
`_registered_model_name` attribute set by `_tag_llm_model`
(graph.py lines 106-107). -/
structure ChatOpenAI where
  kwargs : ChatOpenAIKwargs
  registeredModelName : Option String
  deriving DecidableEq, Repr

/-- `create_llm` (graph.py lines 235-261).  The `bind_tools` parameter is
accepted but unused: the tool-binding branch is commented out in the
source (lines 257-259), so the flag has no effect on the result. -/
def create_llm (modelName : ModelNames) (temperature : Rat)
    (promptCacheKey : Option String) (_bindTools : Bool) : ChatOpenAI :=
  let modelNameStr := modelName.value
  let extraBody : Option (List (String × String)) :=
    match promptCacheKey with
    | some k => if k = "" then none else some [("prompt_cache_key", k)]
    | none => none
  let resolvedTemperature := (resolveTemperature modelName (some temperature)).1
  { kwargs :=
      { model := modelNameStr
        includeResponseHeaders := true
        maxRetries := 5
        timeout := 60
        temperature := resolvedTemperature
        extraBody := extraBody }
    registeredModelName := some modelNameStr }

/-- `_resolve_llm_model_name` (graph.py lines 110-120): first non-empty
string among the `_registered_model_name`, `model_name` and `model`
attributes (the latter two both reflect the `model` kwarg of the real
client), else the string `unknown`. -/
def resolveLlmModelName (llm : ChatOpenAI) : String :=
  match llm.registeredModelName with
  | some s =>
    if s = "" then (if llm.kwargs.model = "" then "unknown" else llm.kwargs.model)
    else s
  | none => if llm.kwargs.model = "" then "unknown" else llm.kwargs.model

/-! ## Response headers (graph.py lines 35-86) -/

/-- The decimal value of a digit character, `none` otherwise. -/
def charDigit (ch : Char) : Option Nat :=
  if ch = '0' then some 0
  else if ch = '1' then some 1
  else if ch = '2' then some 2
  else if ch = '3' then some 3
  else if ch = '4' then some 4
  else if ch = '5' then some 5
  else if ch = '6' then some 6
  else if ch = '7' then some 7
  else if ch = '8' then some 8
  else if ch = '9' then some 9
  else none

/-- Accumulate a non-empty run of decimal digits. -/
def parseDigitsAux : List Char → Nat → Option Nat
  | [], acc => some acc
  | ch :: rest, acc =>
    match charDigit ch with
    | some d => parseDigitsAux rest (acc * 10 + d)
    | none => none

/-- Parse a non-empty all-digit character list. -/
def parseDigits : List Char → Option Nat
  | [] => none
  | l => parseDigitsAux l 0

/-- Python `int(...)` applied to a header string: optional surrounding
whitespace, an optional sign, then a non-empty run of decimal digits;
anything else raises `ValueError`.  Implemented directly over the
character list. -/
def pyInt (s : String) : Option Int :=
  let t := ((s.data.dropWhile (fun ch => ch = ' ')).reverse.dropWhile
    (fun ch => ch = ' ')).reverse
  match t with
  | '-' :: rest => (parseDigits rest).map (fun n => -(n : Int))
  | '+' :: rest => (parseDigits rest).map (fun n => (n : Int))
  | l => (parseDigits l).map (fun n => (n : Int))

/-- The recognized rate-limit header names, in the iteration order of the
`header_parsers` dict (graph.py lines 40-47). -/
def headerParserKeys : List String :=
  ["x-ratelimit-limit-requests", "x-ratelimit-limit-tokens",
   "x-ratelimit-remaining-requests", "x-ratelimit-remaining-tokens"]

/-- The per-key loop of `format_headers` (graph.py lines 49-51): a key
present in the payload is parsed with `int`; a non-numeric value raises
`ValueError` (surfaced as `.error`); an absent key is skipped. -/
def parseHeaderEntries : List String → List (String × String) →
    Except String (List (String × DVal))
  | [], _ => .ok []
  | k :: ks, payload =>
    match lookupKV payload k with
    | none => parseHeaderEntries ks payload
    | some v =>
      match pyInt v with
      | none => .error ("invalid literal for int with base 10: " ++ v)
      | some i =>
        match parseHeaderEntries ks payload with
        | .error e => .error e
        | .ok rest => .ok ((k, DVal.n i) :: rest)

/-- `format_headers` (graph.py lines 35-56): a mapping opening with the
model name, followed by the recognized headers parsed as integers, and the
total token usage when present. -/
def format_headers (modelName : String) (headerPayload : List (String × String))
    (tokenUsage : List (String × Int)) : Except String (List (String × DVal)) :=
  match parseHeaderEntries headerParserKeys headerPayload with
  | .error e => .error e
  | .ok entries =>
    let formatted := ("model_name", DVal.s modelName) :: entries
    match lookupKV tokenUsage "total_tokens" with
    | some t => .ok (formatted ++ [("total_tokens", DVal.n t)])
    | none => .ok formatted

/-- A successful provider response: the text content plus the optional
`response_metadata` headers and token usage attached by the client when
`include_response_headers` is set. -/
structure LLMResponse where
  content : String
  headers : Option (List (String × String))
  tokenUsage : Option (List (String × Int))

/-- `extract_headers` (graph.py lines 59-86) in the configuration used by
`LLMChainResources.run`: the model name is always supplied, missing
metadata defaults to empty mappings. -/
def extract_headers (message : LLMResponse) (modelName : String) :
    Except String (List (String × DVal)) :=
  format_headers modelName (message.headers.getD []) (message.tokenUsage.getD [])

/-! ## Prompt templates (external collaborator, used via
`PromptTemplate.from_template` and `prompt.invoke`) -/

/-- Scan an f-string style template for `.\x7bvar\x7d.` placeholders;
doubled braces are literals.  The fuel argument is the character count,
ample since every step consumes at least one character. -/
def scanTemplateVars : Nat → List Char → List String
  | 0, _ => []
  | _ + 1, [] => []
  | fuel + 1, c :: cs =>
    if c = '{' then
      match cs with
      | [] => []
      | c2 :: cs2 =>
        if c2 = '{' then scanTemplateVars fuel cs2
        else
          let name := (c2 :: cs2).takeWhile (fun ch => ch ≠ '}')
          let rest := ((c2 :: cs2).dropWhile (fun ch => ch ≠ '}')).drop 1
          String.mk name :: scanTemplateVars fuel rest
    else scanTemplateVars fuel cs

/-- A prompt template: the variable names extracted from the template
text plus the text itself. -/
structure PromptTemplate where
  inputVariables : List String
  template : String

/-- `PromptTemplate.from_template` (graph.py line 217). -/
def PromptTemplate.fromTemplate (t : String) : PromptTemplate :=
  ⟨scanTemplateVars t.length t.data, t⟩

/-- Coarse `str()` used when splicing a value into the rendered prompt;
every value this pipeline renders is a string. -/
def Value.pyStr : Value → String
  | .str s => s
  | .int n => toString n
  | .list _ => "[...]"
  | .map _ => "\x7b...\x7d"
  | .pyd _ => "\x7b...\x7d"
  | .msg s => s

/-- Substitute the placeholders of a template with the input values
(doubled braces become single literal braces). -/
def renderTemplate : Nat → List Char → Inputs → List Char
  | 0, _, _ => []
  | _ + 1, [], _ => []
  | fuel + 1, c :: cs, inputs =>
    if c = '{' then
      match cs with
      | [] => []
      | c2 :: cs2 =>
        if c2 = '{' then '{' :: renderTemplate fuel cs2 inputs
        else
          let name := (c2 :: cs2).takeWhile (fun ch => ch ≠ '}')
          let rest := ((c2 :: cs2).dropWhile (fun ch => ch ≠ '}')).drop 1
          (((lookupKV inputs (String.mk name)).map Value.pyStr).getD "").data ++
            renderTemplate fuel rest inputs
    else c :: renderTemplate fuel cs inputs

/-- `prompt.invoke(inputs)` (graph.py line 146): rendering fails with a
`KeyError` when a required template variable is missing from the inputs,
otherwise it produces the substituted prompt text. -/
def PromptTemplate.invoke (p : PromptTemplate) (inputs : Inputs) :
    Except String String :=
  if p.inputVariables.all (fun v => (lookupKV inputs v).isSome) then
    .ok (String.mk (renderTemplate p.template.length p.template.data inputs))
  else .error "KeyError: missing template variable"

/-! ## Output parsers (external collaborators from langchain-core) -/

/-- The lang-chain `OutputParserException`: the exception the pydantic
parser raises when the completion does not conform to the schema; it
carries the raw offending completion text. -/
structure OutputParserException where
  llmOutput : String

/-- An output parser as used by `_build_llm_chain`: either a
`PydanticOutputParser` for a named schema — its parsing behavior on raw
text is the external collaborator `parse` — or the fallback
`StrOutputParser`. -/
inductive OutputParser : Type where
  | pydanticParser : String → (String → Option Value) → OutputParser
  | strOutputParser : OutputParser

/-- `isinstance(parser, PydanticOutputParser)`. -/
def OutputParser.isPydantic : OutputParser → Bool
  | .pydanticParser _ _ => true
  | .strOutputParser => false

/-- The external `PydanticOutputParser.get_format_instructions`: a fixed
non-empty instruction template mentioning the schema. -/
def pydanticFormatInstructions (schemaName : String) : String :=
  "The output should be formatted as a JSON instance that conforms to the JSON schema below.\n"
    ++ schemaName

/-- `parser.get_format_instructions()` as called by `_build_llm_chain`. -/
def OutputParser.getFormatInstructions : OutputParser → String
  | .pydanticParser schemaName _ => pydanticFormatInstructions schemaName
  | .strOutputParser => ""

/-- `parser.invoke(raw_output)` (graph.py line 204): the string parser
returns the message content; the pydantic parser either parses the
content or raises an `OutputParserException` carrying the raw text. -/
def OutputParser.invoke : OutputParser → LLMResponse →
    Except OutputParserException Value
  | .strOutputParser, resp => .ok (.str resp.content)
  | .pydanticParser _ parse, resp =>
    match parse resp.content with
    | some v => .ok v
    | none => .error ⟨resp.content⟩

/-! ## Chain resources (`LLMChainResources`, graph.py lines 134-232) -/

/-- The outcome of the synchronous `self.llm.invoke(llm_input)` call, the
external transport: a successful response, an `openai.RateLimitError`
(with the retry-after header and the response headers), or any other
`openai.APIStatusError` (with its status code, headers and message). -/
inductive LLMOutcome : Type where
  | ok : LLMResponse → LLMOutcome
  | rateLimited : Option String → List (String × String) → LLMOutcome
  | apiFailure : Option Int → List (String × String) → String → LLMOutcome

/-- Everything `LLMChainResources.run` can raise.  Only the first two
constructors carry a taxonomy `ErrorRecord`; the remaining ones model
exceptions foreign to the taxonomy that escape `run` unwrapped: the
lang-chain `OutputParserException` from `parser.invoke`, the `KeyError`
from prompt rendering, the `ValueError` from `int()` inside header
normalization, and the `KeyError`/`AttributeError` from appending to a
state value that is not a list. -/
inductive RunFailure : Type where
  | rateLimit : ErrorRecord → RunFailure
  | llmCall : ErrorRecord → RunFailure
  | parserException : OutputParserException → RunFailure
  | templateKeyError : String → RunFailure
  | valueError : String → RunFailure
  | stateTypeError : String → RunFailure

/-- The taxonomy error record carried by a failure, when there is one. -/
def RunFailure.errorRecord : RunFailure → Option ErrorRecord
  | .rateLimit e => some e
  | .llmCall e => some e
  | .parserException _ => none
  | .templateKeyError _ => none
  | .valueError _ => none
  | .stateTypeError _ => none

/-- The dataclass `LLMChainResources` (graph.py lines 134-139). -/
structure LLMChainResources where
  prompt : PromptTemplate
  llm : ChatOpenAI
  parser : Option OutputParser
  formatInstructions : String

/-- The `returns_pydantic` property (graph.py lines 141-143). -/
def LLMChainResources.returnsPydantic (c : LLMChainResources) : Bool :=
  match c.parser with
  | some p => p.isPydantic
  | none => false

/-- `LLMChainResources.run` (graph.py lines 145-207), with the transport
passed as the function `invoke` from the rendered prompt to the provider
outcome.  A throttling failure is re-raised as `RateLimitExceededError`
whose details hold the model name, the retry-after header and the
normalized rate-limit headers (`format_headers` with empty token usage,
lines 151-179); any other transport failure is re-raised as `LLMError`
whose details hold the model name, status code, headers and message
(lines 180-202); on success the raw output goes through the parser, if
any, before the headers are extracted (lines 203-207). -/
def LLMChainResources.run (c : LLMChainResources) (invoke : String → LLMOutcome)
    (inputs : Inputs) : Except RunFailure (Value × List (String × DVal)) :=
  match c.prompt.invoke inputs with
  | .error e => .error (.templateKeyError e)
  | .ok promptValue =>
    let modelName := resolveLlmModelName c.llm
    match invoke promptValue with
    | .rateLimited retryAfter headerPayload =>
      match format_headers modelName headerPayload [] with
      | .error e => .error (.valueError e)
      | .ok ratelimitHeaders =>
        .error (.rateLimit (mkBaseServiceError RateLimitExceededErrorClass
          ("Rate limit hit when calling model " ++ modelName ++
            ". Reduce request rate or verify quota/billing.")
          none none none
          (some [("model_name", DVal.s modelName),
                 ("retry_after", match retryAfter with
                   | some ra => DVal.s ra
                   | none => DVal.null),
                 ("ratelimit", DVal.m ratelimitHeaders)])))
    | .apiFailure statusCode headerPayload errText =>
      .error (.llmCall (mkBaseServiceError LLMErrorClass
        ("LLM call failed for model " ++ modelName)
        none none none
        (some [("model_name", DVal.s modelName),
               ("status_code", match statusCode with
                 | some sc => DVal.n sc
                 | none => DVal.null),
               ("headers", DVal.m (headerPayload.map
                 (fun kv => (kv.1, DVal.s kv.2)))),
               ("error", DVal.s errText)])))
    | .ok resp =>
      let parsedOutput : Except OutputParserException Value :=
        match c.parser with
        | some p => p.invoke resp
        | none => .ok (.msg resp.content)
      match parsedOutput with
      | .error e => .error (.parserException e)
      | .ok parsed =>
        match extract_headers resp modelName with
        | .error e => .error (.valueError e)
        | .ok headers => .ok (parsed, headers)

/-- `_build_llm_chain` (graph.py lines 210-232): with `skip_parser` the
resources carry no parser and empty instructions; otherwise a missing
parser falls back to `StrOutputParser`, and the format instructions are
rendered only for a pydantic parser, else left empty. -/
def _build_llm_chain (llm : ChatOpenAI) (promptText : String)
    (parser : Option OutputParser) (skipParser : Bool) : LLMChainResources :=
  let prompt := PromptTemplate.fromTemplate promptText
  if skipParser then
    { prompt := prompt, llm := llm, parser := none, formatInstructions := "" }
  else
    let parser := parser.getD OutputParser.strOutputParser
    let formatInstructions :=
      if parser.isPydantic then parser.getFormatInstructions else ""
    { prompt := prompt, llm := llm, parser := some parser,
      formatInstructions := formatInstructions }

/-! ## Nodes (`make_normal_node`, graph.py lines 265-318) -/

/-- `result.model_dump()` applied when the chain returns a pydantic
object (graph.py lines 302-303): the model instance becomes a plain
mapping; other values are untouched by the node (the branch is guarded by
`returns_pydantic`). -/
def modelDump : Value → Value
  | .pyd fields => .map fields
  | v => v

/-- The configuration of one node as accepted by `make_normal_node`
(graph.py lines 265-277): the prompt text, the state→inputs projector,
the optional pydantic output schema (name plus external parsing
behavior), the output key, the append-versus-replace flag, and the
optional output-transform and state-modification hooks. -/
structure NodeSpec where
  promptText : String
  makeInputs : PState → Inputs
  parserOutput : Option (String × (String → Option Value))
  stateKey : String
  stateAppend : Bool
  makeOutputs : Option (Value → Value)
  modifyState : Option (PState → Value → PState)
  skipParser : Bool

/-- The chain resources built once per node by `make_normal_node`
(graph.py lines 280-290). -/
def makeNormalNodeChain (llm : ChatOpenAI) (spec : NodeSpec) : LLMChainResources :=
  _build_llm_chain llm spec.promptText
    (spec.parserOutput.map (fun po => OutputParser.pydanticParser po.1 po.2))
    spec.skipParser

/-- The inputs the inner node hands to the chain (graph.py lines
294-296): the projector output, with the format instructions injected
when the chain returns a pydantic object. -/
def nodeInputs (chain : LLMChainResources) (makeInputs : PState → Inputs)
    (state : PState) : Inputs :=
  let inputs := makeInputs state
  if chain.returnsPydantic then
    setKV inputs "format_instructions" (.str chain.formatInstructions)
  else inputs

/-- The single result value a node execution computes before touching the
state (graph.py lines 298-303): the chain output, through the optional
output transform, flattened by `model_dump` when pydantic. -/
def nodeResult (chain : LLMChainResources) (spec : NodeSpec)
    (invoke : String → LLMOutcome) (state : PState) : Except RunFailure Value :=
  match chain.run invoke (nodeInputs chain spec.makeInputs state) with
  | .error e => .error e
  | .ok out =>
    let result := match spec.makeOutputs with
      | some f => f out.1
      | none => out.1
    .ok (if chain.returnsPydantic then modelDump result else result)

/-- The inner `node` closure returned by `make_normal_node` (graph.py
lines 292-316): compute the result, apply the optional state-modification
hook, then write the result under the output key — appending to the
existing sequence in append mode (a missing key or a non-sequence value
raises, mirrored by `.stateTypeError`), else replacing wholesale. -/
def runNode (llm : ChatOpenAI) (spec : NodeSpec) (invoke : String → LLMOutcome)
    (state : PState) : Except RunFailure PState :=
  let chain := makeNormalNodeChain llm spec
  match nodeResult chain spec invoke state with
  | .error e => .error e
  | .ok result =>
    let state := match spec.modifyState with
      | some f => f state result
      | none => state
    if spec.stateAppend then
      match lookupKV state spec.stateKey with
      | some (Value.list xs) =>
        .ok (setKV state spec.stateKey (.list (xs ++ [result])))
      | _ => .error (.stateTypeError
          "state value under the output key does not support append")
    else .ok (setKV state spec.stateKey result)

/-! ## The runner (`GraphRunner`, runner.py lines 17-89) -/

/-- The client cache key `(model_enum.value, temperature,
prompt_cache_key, bind_tools)` (runner.py line 61). -/
abbrev CacheKey := String × Rat × Option String × Bool

/-- The `model_name` argument of `_get_llm`: either an enum member or a
string (runner.py lines 43-59). -/
inductive ModelArg : Type where
  | enum : ModelNames → ModelArg
  | str : String → ModelArg

/-- The enum resolution of `_get_llm` (runner.py lines 51-59): an enum
member is used as is; a string is first interpreted as an enum value and
then as an enum key; when neither matches the `KeyError` propagates,
modelled by `none`. -/
def ModelArg.resolve : ModelArg → Option ModelNames
  | .enum m => some m
  | .str s =>
    match ModelNames.fromValue s with
    | some m => some m
    | none => ModelNames.fromKey s

/-- The cache key the pair of `_get_llm` arguments resolves to. -/
def resolveCacheKey (m : ModelArg) (temperature : Rat)
    (promptCacheKey : Option String) (bindTools : Bool) : Option CacheKey :=
  (m.resolve).map (fun me => (me.value, temperature, promptCacheKey, bindTools))

/-- The mutable fields of a `GraphRunner` instance (runner.py lines
18-33).  The configuration object, the compiled graph, its execution
config, the retriever and the token callback are opaque handles. -/
structure GraphRunner where
  config : Nat
  graph : Option Nat
  graphConfig : Option Nat
  retriever : Option Nat
  llmCache : List (CacheKey × ChatOpenAI)
  tokenInformationChangedCallback : Option Nat
  deriving DecidableEq, Repr

/-- `GraphRunner.__init__` (runner.py lines 18-33). -/
def GraphRunner.init (config : Nat) (callback : Option Nat) : GraphRunner :=
  { config := config
    graph := none
    graphConfig := none
    retriever := none
    llmCache := []
    tokenInformationChangedCallback := callback }

/-- `set_retriever` (runner.py lines 35-38): store the new retriever and
drop the compiled graph and its config; nothing else is touched. -/
def GraphRunner.setRetriever (r : GraphRunner) (retriever : Nat) : GraphRunner :=
  { r with retriever := some retriever, graph := none, graphConfig := none }

/-- `_get_llm` (runner.py lines 43-70): resolve the enum, form the cache
key, return the cached client when present, else build one with
`create_llm` — called without the `bind_tools` argument, so with its
default `False` — and cache it.  An unresolvable model name propagates
the lookup exception (`none`). -/
def GraphRunner.getLLM (r : GraphRunner) (modelName : ModelArg)
    (temperature : Rat) (promptCacheKey : Option String) (bindTools : Bool) :
    Option (ChatOpenAI × GraphRunner) :=
  match modelName.resolve with
  | none => none
  | some modelEnum =>
    let cacheKey : CacheKey := (modelEnum.value, temperature, promptCacheKey, bindTools)
    match lookupKV r.llmCache cacheKey with
    | some llm => some (llm, r)
    | none =>
      let llm := create_llm modelEnum temperature promptCacheKey false
      some (llm, { r with llmCache := setKV r.llmCache cacheKey llm })

/-- `_ensure_graph` (runner.py lines 72-79): build the graph when either
the graph or its config is missing, then fail with
`GraphInitializeError` when still missing; `build_graph` is the abstract
method supplied by the subclass. -/
def GraphRunner.ensureGraph (buildGraph : GraphRunner → Option Nat × Option Nat)
    (r : GraphRunner) : Except ErrorRecord ((Nat × Nat) × GraphRunner) :=
  let r1 := if r.graph.isNone || r.graphConfig.isNone then
      { r with graph := (buildGraph r).1, graphConfig := (buildGraph r).2 }
    else r
  match r1.graph, r1.graphConfig with
  | some g, some c => .ok ((g, c), r1)
  | some _, none => .error (mkBaseServiceError GraphInitializeErrorClass
      "Graph or graph_config is not properly initialized." none none none none)
  | none, _ => .error (mkBaseServiceError GraphInitializeErrorClass
      "Graph or graph_config is not properly initialized." none none none none)

/-! ## Auxiliary predicates and concrete instances used in the theorems -/

/-- Every recognized rate-limit header present in the payload carries an
integer value — the condition under which `format_headers` does not raise
`ValueError` from `int()`. -/
def recognizedHeadersNumeric (hs : List (String × String)) : Bool :=
  headerParserKeys.all (fun k =>
    match lookupKV hs k with
    | some v => (pyInt v).isSome
    | none => true)

/-- A concrete client: `create_llm(ModelNames.gpt41)` with the default
`temperature=0.0` and no prompt-cache key. -/
def llm0 : ChatOpenAI := create_llm .gpt41 0 none false

/-- A pydantic parse behavior that rejects every completion, modelling a
schema the raw response never conforms to. -/
def rejectAllParse : String → Option Value := fun _ => none

/-- A chain with a structured (pydantic) parser over `llm0`. -/
def chainPydantic : LLMChainResources :=
  _build_llm_chain llm0 "say \x7bx\x7d"
    (some (.pydanticParser "GoalDecompNodeParser" rejectAllParse)) false

/-- A chain built with no explicit parser and `skip_parser=False`: the
fallback `StrOutputParser` is installed. -/
def chainStrFallback : LLMChainResources := _build_llm_chain llm0 "hello" none false

/-- A transport that answers the non-conforming completion text. -/
def invokeNotJson : String → LLMOutcome := fun _ => .ok ⟨"not json", none, none⟩

/-- A transport that throttles with a non-numeric recognized rate-limit
header. -/
def invokeThrottleGarbage : String → LLMOutcome :=
  fun _ => .rateLimited none [("x-ratelimit-limit-requests", "unavailable")]

/-- A transport that throttles with a numeric rate-limit header and a
retry-after value. -/
def invokeThrottleNumeric : String → LLMOutcome :=
  fun _ => .rateLimited (some "1") [("x-ratelimit-remaining-requests", "99")]

/-- A transport that fails with a non-throttling provider status. -/
def invokeApiFailure : String → LLMOutcome :=
  fun _ => .apiFailure (some 500) [("content-type", "text")] "server exploded"

/-- A transport that succeeds with a plain text answer. -/
def invokeOkText : String → LLMOutcome := fun _ => .ok ⟨"answer", none, none⟩

/-- A freshly initialized runner. -/
def runner0 : GraphRunner := GraphRunner.init 0 none

/-- The cache key of `llm0` in `runner0`. -/
def cacheKey0 : CacheKey := ("gpt-4.1", 0, none, false)

/-- `runner0` after `_get_llm` has cached `llm0` under `cacheKey0`. -/
def runner1 : GraphRunner :=
  { runner0 with llmCache := setKV runner0.llmCache cacheKey0 llm0 }

/-- A runner holding a built graph, its config and one cached client. -/
def runnerCached : GraphRunner :=
  { config := 0
    graph := some 1
    graphConfig := some 2
    retriever := none
    llmCache := [(cacheKey0, llm0)]
    tokenInformationChangedCallback := none }

/-- A concrete `build_graph` implementation handing back a fresh compiled
graph and execution config. -/
def buildGraph0 : GraphRunner → Option Nat × Option Nat := fun _ => (some 5, some 6)

/-- A replace-mode node over `llm0` writing the `subgoals` key, with no
hooks, mirroring the `goal_decomp` node configuration
(runner.py lines 96-107). -/
def specReplace : NodeSpec :=
  { promptText := "say \x7bx\x7d"
    makeInputs := fun _ => [("x", Value.str "hi")]
    parserOutput := none
    stateKey := "subgoals"
    stateAppend := false
    makeOutputs := none
    modifyState := none
    skipParser := false }

/-- An append-mode node over `llm0` writing the `history` key. -/
def specAppend : NodeSpec :=
  { specReplace with stateKey := "history", stateAppend := true }

/-- A small concrete planning state. -/
def state0 : PState :=
  [("history", Value.list []), ("subgoals", Value.str "old"),
   ("user_queries", Value.list [Value.str "organize the objects"])]

/-- `state0` after one execution of the append-mode node. -/
def state1 : PState := setKV state0 "history" (Value.list [Value.str "answer"])

/-- `state0` after one execution of the replace-mode node. -/
def state2 : PState := setKV state0 "subgoals" (Value.str "answer")

/-! ## Theorems -/

theorem lookupKV_setKV_self {α β : Type} [DecidableEq α]
    (l : List (α × β)) (k : α) (v : β) :
    lookupKV (setKV l k v) k = some v := by
  induction l with
  | nil => simp [setKV, lookupKV]
  | cons hd tl ih =>
    obtain ⟨k', v'⟩ := hd
    by_cases h : k' = k
    · simp [setKV, h, lookupKV]
    · simp [setKV, h, lookupKV, ih]

theorem lookupKV_setKV_ne {α β : Type} [DecidableEq α]
    (l : List (α × β)) (k k' : α) (v : β) (h : k' ≠ k) :
    lookupKV (setKV l k v) k' = lookupKV l k' := by
  induction l with
  | nil => simp [setKV, lookupKV, Ne.symm h]
  | cons hd tl ih =>
    obtain ⟨k0, v0⟩ := hd
    by_cases h0 : k0 = k
    · subst h0
      simp [setKV, lookupKV, Ne.symm h]
    · simp only [setKV, h0, if_false, lookupKV]
      by_cases h1 : k0 = k'
      · simp [h1]
      · simp [h1, ih]

theorem parseHeaderEntries_isOk (ks : List String) (hs : List (String × String))
    (h : ks.all (fun k =>
      match lookupKV hs k with
      | some v => (pyInt v).isSome
      | none => true) = true) :
    ∃ entries, parseHeaderEntries ks hs = .ok entries := by
  induction ks with
  | nil => exact ⟨[], rfl⟩
  | cons k ks ih =>
    rw [List.all_cons, Bool.and_eq_true] at h
    obtain ⟨hk, hks⟩ := h
    obtain ⟨entries, hentries⟩ := ih hks
    cases hlk : lookupKV hs k with
    | none => exact ⟨entries, by simp [parseHeaderEntries, hlk, hentries]⟩
    | some v =>
      rw [hlk] at hk
      have hk2 : (pyInt v).isSome = true := hk
      cases hpi : pyInt v with
      | none => rw [hpi] at hk2; cases hk2
      | some i =>
        exact ⟨(k, DVal.n i) :: entries, by
          simp [parseHeaderEntries, hlk, hpi, hentries]⟩

theorem getLLM_cache_post (r : GraphRunner) (m : ModelArg) (t : Rat)
    (p : Option String) (b : Bool) (k : CacheKey) (c : ChatOpenAI)
    (r' : GraphRunner)
    (hk : resolveCacheKey m t p b = some k)
    (h : GraphRunner.getLLM r m t p b = some (c, r')) :
    lookupKV r'.llmCache k = some c := by
  unfold resolveCacheKey at hk
  cases hres : m.resolve with
  | none => rw [hres] at hk; cases hk
  | some me =>
    rw [hres] at hk
    have hkey : (me.value, t, p, b) = k := Option.some.inj hk
    subst hkey
    cases hcache : lookupKV r.llmCache (me.value, t, p, b) with
    | some c0 =>
      simp only [GraphRunner.getLLM, hres, hcache] at h
      have hpair : (c0, r) = (c, r') := Option.some.inj h
      injection hpair with hc hr
      subst hc
      subst hr
      exact hcache
    | none =>
      simp only [GraphRunner.getLLM, hres, hcache] at h
      have hpair := Option.some.inj h
      injection hpair with hc hr
      subst hc
      subst hr
      exact lookupKV_setKV_self r.llmCache (me.value, t, p, b) (create_llm me t p false)

theorem getLLM_cache_hit (r : GraphRunner) (m : ModelArg) (t : Rat)
    (p : Option String) (b : Bool) (k : CacheKey) (c : ChatOpenAI)
    (hk : resolveCacheKey m t p b = some k)
    (hcache : lookupKV r.llmCache k = some c) :
    GraphRunner.getLLM r m t p b = some (c, r) := by
  unfold resolveCacheKey at hk
  cases hres : m.resolve with
  | none => rw [hres] at hk; cases hk
  | some me =>
    rw [hres] at hk
    have hkey : (me.value, t, p, b) = k := Option.some.inj hk
    subst hkey
    simp only [GraphRunner.getLLM, hres, hcache]

/-- Claim C1.  The claim states that a structured-parser failure on a
successful model call yields a Parsing error with status 422 carrying the
raw offending text in details.  The code does not do this: `run` invokes
the parser outside any handler (graph.py line 204, with the
`OutputParserException` import commented out at line 8), so the parser's
own `OutputParserException` — which is not a taxonomy error and carries
no `status` — propagates unwrapped, and the `ParsingError` class of
errors.py is never raised.  At the concrete failing input below the run
ends in the bare parser exception and carries no taxonomy error record at
all. -/
theorem parser_failure_bypasses_parsing_error :
    LLMChainResources.run chainPydantic invokeNotJson [("x", Value.str "hi")] =
      .error (.parserException ⟨"not json"⟩)
    ∧ RunFailure.errorRecord (.parserException ⟨"not json"⟩) = none :=
  ⟨rfl, rfl⟩

/-- Claim C3.  For every runner and every pair of `_get_llm` requests
whose resolved cache keys coincide, the second request returns the very
client the first one cached and leaves the runner untouched: a client
stored under a key is never rebuilt for that key. -/
theorem llm_cache_reference_identity (r : GraphRunner)
    (m1 m2 : ModelArg) (t1 t2 : Rat) (p1 p2 : Option String) (b1 b2 : Bool)
    (k : CacheKey) (c1 c2 : ChatOpenAI) (r1 r2 : GraphRunner)
    (hk1 : resolveCacheKey m1 t1 p1 b1 = some k)
    (hk2 : resolveCacheKey m2 t2 p2 b2 = some k)
    (h1 : GraphRunner.getLLM r m1 t1 p1 b1 = some (c1, r1))
    (h2 : GraphRunner.getLLM r1 m2 t2 p2 b2 = some (c2, r2)) :
    c2 = c1 ∧ r2 = r1 := by
  have hpost := getLLM_cache_post r m1 t1 p1 b1 k c1 r1 hk1 h1
  have hhit := getLLM_cache_hit r1 m2 t2 p2 b2 k c1 hk2 hpost
  rw [hhit] at h2
  have hpair : (c1, r1) = (c2, r2) := Option.some.inj h2
  injection hpair with hc hr
  exact ⟨hc.symm, hr.symm⟩

/-- Witness for claim C3 at a concrete runner: the first request caches
`llm0`, the second request — the same key reached through the enum-value
string — returns that very client and runner. -/
theorem llm_cache_reference_identity_witness : llm0 = llm0 ∧ runner1 = runner1 :=
  llm_cache_reference_identity runner0 (ModelArg.str "gpt-4.1")
    (ModelArg.enum .gpt41) 0 0 none none false false cacheKey0
    llm0 llm0 runner1 runner1 rfl rfl rfl rfl

/-- Claim C4, counterexample.  The claim states that `set_retriever`
clears the model-client cache, after which the next `_get_llm` builds a
new client.  On the concrete runner below, whose cache holds one client,
`set_retriever` leaves the cache non-empty and the next `_get_llm` for
the cached key returns that cached client without building anything (the
runner comes back unchanged). -/
theorem set_retriever_cache_not_cleared_cex :
    (GraphRunner.setRetriever runnerCached 7).llmCache ≠ [] ∧
    GraphRunner.getLLM (GraphRunner.setRetriever runnerCached 7)
        (ModelArg.enum .gpt41) 0 none false =
      some (llm0, GraphRunner.setRetriever runnerCached 7) := by
  constructor
  · intro h
    exact List.cons_ne_nil _ _ h
  · rfl

/-- Claim C4, amended.  `set_retriever` does not clear the model-client
cache: the cache survives the retriever swap unchanged, and a key cached
before the swap is still served from the cache afterwards — the next
`_get_llm` for it returns the stored client and builds nothing. -/
theorem set_retriever_preserves_llm_cache (r : GraphRunner) (ret : Nat)
    (m : ModelArg) (t : Rat) (p : Option String) (b : Bool)
    (k : CacheKey) (c : ChatOpenAI)
    (hk : resolveCacheKey m t p b = some k)
    (hcached : lookupKV r.llmCache k = some c) :
    (GraphRunner.setRetriever r ret).llmCache = r.llmCache ∧
    GraphRunner.getLLM (GraphRunner.setRetriever r ret) m t p b =
      some (c, GraphRunner.setRetriever r ret) := by
  refine ⟨rfl, ?_⟩
  exact getLLM_cache_hit (GraphRunner.setRetriever r ret) m t p b k c hk hcached

/-- Witness for the amended claim C4 at the concrete cached runner. -/
theorem set_retriever_preserves_llm_cache_witness :
    (GraphRunner.setRetriever runnerCached 7).llmCache = runnerCached.llmCache ∧
    GraphRunner.getLLM (GraphRunner.setRetriever runnerCached 7)
        (ModelArg.str "gpt-4.1") 0 none false =
      some (llm0, GraphRunner.setRetriever runnerCached 7) :=
  set_retriever_preserves_llm_cache runnerCached 7 (ModelArg.str "gpt-4.1")
    0 none false cacheKey0 llm0 rfl rfl

/-- Claim C5.  Swapping the retriever invalidates the compiled graph and
its execution config — the next `_ensure_graph` (hence the next `invoke`)
rebuilds them through `build_graph` — while the model-client cache, the
configuration and the token callback stay exactly as they were; the only
other change is the retriever field itself. -/
theorem set_retriever_invalidates_graph_only (r : GraphRunner) (ret : Nat)
    (bg : GraphRunner → Option Nat × Option Nat) (g c : Nat)
    (hbuild : bg (GraphRunner.setRetriever r ret) = (some g, some c)) :
    (GraphRunner.setRetriever r ret).graph = none ∧
    (GraphRunner.setRetriever r ret).graphConfig = none ∧
    (GraphRunner.setRetriever r ret).retriever = some ret ∧
    (GraphRunner.setRetriever r ret).llmCache = r.llmCache ∧
    (GraphRunner.setRetriever r ret).config = r.config ∧
    (GraphRunner.setRetriever r ret).tokenInformationChangedCallback =
      r.tokenInformationChangedCallback ∧
    GraphRunner.ensureGraph bg (GraphRunner.setRetriever r ret) =
      .ok ((g, c),
        { GraphRunner.setRetriever r ret with
            graph := some g, graphConfig := some c }) := by
  refine ⟨rfl, rfl, rfl, rfl, rfl, rfl, ?_⟩
  have hb : bg { r with graph := none, graphConfig := none, retriever := some ret } =
      (some g, some c) := hbuild
  simp [GraphRunner.ensureGraph, GraphRunner.setRetriever, hb]

/-- Witness for claim C5 at the concrete cached runner: the stale graph
handles are dropped and `_ensure_graph` installs the freshly built
pair. -/
theorem set_retriever_invalidates_graph_only_witness :
    (GraphRunner.setRetriever runnerCached 7).graph = none ∧
    (GraphRunner.setRetriever runnerCached 7).graphConfig = none ∧
    (GraphRunner.setRetriever runnerCached 7).retriever = some 7 ∧
    (GraphRunner.setRetriever runnerCached 7).llmCache = runnerCached.llmCache ∧
    (GraphRunner.setRetriever runnerCached 7).config = runnerCached.config ∧
    (GraphRunner.setRetriever runnerCached 7).tokenInformationChangedCallback =
      runnerCached.tokenInformationChangedCallback ∧
    GraphRunner.ensureGraph buildGraph0 (GraphRunner.setRetriever runnerCached 7) =
      .ok ((5, 6),
        { GraphRunner.setRetriever runnerCached 7 with
            graph := some 5, graphConfig := some 6 }) :=
  set_retriever_invalidates_graph_only runnerCached 7 buildGraph0 5 6 rfl

/-- Claim C2, counterexample.  The claim states that every throttling
transport failure is re-raised as a Rate-limit error with status 429.  At
the concrete input below the provider throttles while carrying the
recognized header `x-ratelimit-limit-requests` with the non-numeric value
`unavailable`: `format_headers` applies `int()` to it inside the
`RateLimitError` handler (graph.py lines 163-167 and 49-51), so the run
escapes with that `ValueError` and no Rate-limit taxonomy error is
raised. -/
theorem rate_limit_header_normalization_cex :
    LLMChainResources.run chainStrFallback invokeThrottleGarbage [] =
      .error (.valueError "invalid literal for int with base 10: unavailable")
    ∧ ¬ ∃ e, LLMChainResources.run chainStrFallback invokeThrottleGarbage [] =
        .error (.rateLimit e) := by
  constructor
  · rfl
  · intro h
    obtain ⟨e, he⟩ := h
    rw [show LLMChainResources.run chainStrFallback invokeThrottleGarbage [] =
      .error (.valueError "invalid literal for int with base 10: unavailable")
      from rfl] at he
    simp at he

/-- Claim C2, amended.  For every model call made by
`LLMChainResources.run`: a transport failure whose provider status
denotes throttling is re-raised as a Rate-limit error with status 429 —
provided every recognized rate-limit header of the throttling response
carries a numeric value, since the handler normalizes them with `int()` —
and every other non-success transport failure is unconditionally
re-raised as a Model-call error with status 502; in both cases the
details mapping contains the model identifier of the invoked client. -/
theorem transport_failure_classification (c : LLMChainResources)
    (invoke : String → LLMOutcome) (inputs : Inputs) (pv : String)
    (hrender : c.prompt.invoke inputs = .ok pv) :
    (∀ ra hs, invoke pv = .rateLimited ra hs →
      recognizedHeadersNumeric hs = true →
      ∃ e, c.run invoke inputs = .error (.rateLimit e) ∧ e.status = 429 ∧
        lookupKV e.details "model_name" = some (.s (resolveLlmModelName c.llm)))
    ∧ (∀ sc hs et, invoke pv = .apiFailure sc hs et →
      ∃ e, c.run invoke inputs = .error (.llmCall e) ∧ e.status = 502 ∧
        lookupKV e.details "model_name" = some (.s (resolveLlmModelName c.llm))) := by
  constructor
  · intro ra hs hinv hnum
    obtain ⟨entries, hentries⟩ :=
      parseHeaderEntries_isOk headerParserKeys hs hnum
    have hrun : c.run invoke inputs = .error (.rateLimit (mkBaseServiceError
        RateLimitExceededErrorClass
        ("Rate limit hit when calling model " ++ resolveLlmModelName c.llm ++
          ". Reduce request rate or verify quota/billing.")
        none none none
        (some [("model_name", DVal.s (resolveLlmModelName c.llm)),
               ("retry_after", match ra with
                 | some x => DVal.s x
                 | none => DVal.null),
               ("ratelimit", DVal.m
                 (("model_name", DVal.s (resolveLlmModelName c.llm)) ::
                   entries))]))) := by
      simp only [LLMChainResources.run, hrender, hinv, format_headers, hentries,
        lookupKV]
      cases ra <;> rfl
    refine ⟨_, hrun, ?_, ?_⟩
    · simp [mkBaseServiceError, RateLimitExceededErrorClass]
    · simp [mkBaseServiceError, RateLimitExceededErrorClass, lookupKV]
  · intro sc hs et hinv
    have hrun : c.run invoke inputs = .error (.llmCall (mkBaseServiceError
        LLMErrorClass
        ("LLM call failed for model " ++ resolveLlmModelName c.llm)
        none none none
        (some [("model_name", DVal.s (resolveLlmModelName c.llm)),
               ("status_code", match sc with
                 | some x => DVal.n x
                 | none => DVal.null),
               ("headers", DVal.m (hs.map (fun kv => (kv.1, DVal.s kv.2)))),
               ("error", DVal.s et)]))) := by
      simp only [LLMChainResources.run, hrender, hinv]
      cases sc <;> rfl
    refine ⟨_, hrun, ?_, ?_⟩
    · simp [mkBaseServiceError, LLMErrorClass]
    · simp [mkBaseServiceError, LLMErrorClass, lookupKV]

/-- Witness for the amended claim C2: a numeric throttling response is
classified as a 429 Rate-limit error and a status-500 provider failure as
a 502 Model-call error, both carrying the model identifier `gpt-4.1` of
`llm0`. -/
theorem transport_failure_classification_witness :
    (∃ e, LLMChainResources.run chainStrFallback invokeThrottleNumeric [] =
        .error (.rateLimit e) ∧ e.status = 429 ∧
        lookupKV e.details "model_name" = some (.s "gpt-4.1"))
    ∧ (∃ e, LLMChainResources.run chainStrFallback invokeApiFailure [] =
        .error (.llmCall e) ∧ e.status = 502 ∧
        lookupKV e.details "model_name" = some (.s "gpt-4.1")) := by
  constructor
  · exact (transport_failure_classification chainStrFallback
      invokeThrottleNumeric [] "hello" rfl).1 (some "1")
      [("x-ratelimit-remaining-requests", "99")] rfl (by decide)
  · exact (transport_failure_classification chainStrFallback
      invokeApiFailure [] "hello" rfl).2 (some 500)
      [("content-type", "text")] "server exploded" rfl

/-- Claim C8.  For the restricted default-temperature-only family
(gpt-5, gpt-5-mini, gpt-5-nano) any explicitly supplied temperature is
omitted from the constructed client — the resolution step drops it,
signalling at most a log warning (exactly when the value differs from the
implicit `1.0`) and never an error, since both `_resolve_temperature` and
`create_llm` are total — while outside the family the supplied value is
passed to the client unchanged. -/
theorem temperature_policy (m : ModelNames) (t : Rat) (p : Option String)
    (b : Bool) :
    (create_llm m t p b).kwargs.temperature =
      (if m ∈ defaultTemperatureOnlyModels then none else some t)
    ∧ (resolveTemperature m (some t)).2 =
      (if m ∈ defaultTemperatureOnlyModels then
        (if t = 1 then false else true) else false) := by
  constructor
  · simp only [create_llm, resolveTemperature]
    split <;> rfl
  · simp only [resolveTemperature]
    split <;> rfl

/-- Claim C9, counterexample.  The claim states that for every Chain
Resource whose parser is present the stored `format_instructions` is
non-empty and injected into every render.  The chain below — built by
`_build_llm_chain` with no explicit parser and `skip_parser=False`, the
configuration every non-pydantic `make_normal_node` produces — carries
the fallback `StrOutputParser`: its parser is present, yet
`format_instructions` is the empty string and the node injects nothing
into the inputs. -/
theorem str_parser_empty_format_instructions_cex :
    (chainStrFallback.parser).isSome = true ∧
    chainStrFallback.formatInstructions = "" ∧
    lookupKV (nodeInputs chainStrFallback (fun _ => []) [])
      "format_instructions" = none :=
  ⟨rfl, rfl, rfl⟩

/-- Claim C9, amended.  For every Chain Resource whose parser is the
structured (pydantic) parser, the stored `format_instructions` string is
non-empty and is injected into the input mapping of every render; for the
fallback plain-string parser the stored instructions are empty and are
not injected. -/
theorem pydantic_format_instructions_injected (llm : ChatOpenAI)
    (promptText : String) (schemaName : String) (parse : String → Option Value)
    (makeInputs : PState → Inputs) (state : PState) :
    (_build_llm_chain llm promptText
      (some (.pydanticParser schemaName parse)) false).formatInstructions ≠ ""
    ∧ lookupKV
        (nodeInputs
          (_build_llm_chain llm promptText
            (some (.pydanticParser schemaName parse)) false)
          makeInputs state)
        "format_instructions" =
      some (.str (_build_llm_chain llm promptText
        (some (.pydanticParser schemaName parse)) false).formatInstructions) := by
  constructor
  · show pydanticFormatInstructions schemaName ≠ ""
    intro h
    have hdata := congrArg String.data h
    rw [pydanticFormatInstructions, String.data_append] at hdata
    simp at hdata
  · show lookupKV (setKV (makeInputs state) "format_instructions"
      (.str (pydanticFormatInstructions schemaName))) "format_instructions" =
      some (.str (pydanticFormatInstructions schemaName))
    exact lookupKV_setKV_self (makeInputs state) "format_instructions" _

/-- Witness for the amended claim C9 at the concrete pydantic chain: the
instructions are non-empty and reach the inputs of the render. -/
theorem pydantic_format_instructions_injected_witness :
    chainPydantic.formatInstructions ≠ "" ∧
    lookupKV (nodeInputs chainPydantic (fun _ => [("x", Value.str "hi")]) state0)
      "format_instructions" = some (.str chainPydantic.formatInstructions) :=
  pydantic_format_instructions_injected llm0 "say \x7bx\x7d"
    "GoalDecompNodeParser" rejectAllParse (fun _ => [("x", Value.str "hi")]) state0

/-- Claim C10.  The tool-binding flag of the cache key has no effect on
client construction: `_get_llm` invokes `create_llm` without the flag
(runner.py lines 64-68) and `create_llm` ignores its own `bind_tools`
parameter (the binding branch is commented out, graph.py lines 257-259),
so for a fresh key the clients built under `bind_tools=True` and
`bind_tools=False` are equal — both equal to the flag-free construction —
while the two cache keys themselves remain distinct entries. -/
theorem bind_tools_flag_unused (r : GraphRunner) (m : ModelArg) (t : Rat)
    (p : Option String) (me : ModelNames)
    (c1 c2 : ChatOpenAI) (r1 r2 : GraphRunner)
    (hres : ModelArg.resolve m = some me)
    (hm1 : lookupKV r.llmCache (me.value, t, p, true) = none)
    (hm2 : lookupKV r.llmCache (me.value, t, p, false) = none)
    (h1 : GraphRunner.getLLM r m t p true = some (c1, r1))
    (h2 : GraphRunner.getLLM r m t p false = some (c2, r2)) :
    c1 = c2 ∧ c1 = create_llm me t p false ∧
    ((me.value, t, p, true) : CacheKey) ≠ ((me.value, t, p, false) : CacheKey) ∧
    (∀ b1 b2 : Bool, create_llm me t p b1 = create_llm me t p b2) := by
  simp only [GraphRunner.getLLM, hres, hm1] at h1
  simp only [GraphRunner.getLLM, hres, hm2] at h2
  have hpair1 := Option.some.inj h1
  have hpair2 := Option.some.inj h2
  injection hpair1 with hc1 hr1
  injection hpair2 with hc2 hr2
  refine ⟨?_, ?_, ?_, fun b1 b2 => rfl⟩
  · rw [← hc1, ← hc2]
  · rw [← hc1]
  · intro h
    have := congrArg (fun k : CacheKey => k.2.2.2) h
    simp at this

/-- Witness for claim C10 on the fresh runner: both flag variants of the
key build the same client. -/
theorem bind_tools_flag_unused_witness :
    llm0 = llm0 ∧ llm0 = create_llm .gpt41 0 none false ∧
    (("gpt-4.1", (0 : Rat), (none : Option String), true) : CacheKey) ≠
      (("gpt-4.1", (0 : Rat), (none : Option String), false) : CacheKey) ∧
    (∀ b1 b2 : Bool, create_llm .gpt41 0 none b1 = create_llm .gpt41 0 none b2) :=
  bind_tools_flag_unused runner0 (ModelArg.enum .gpt41) 0 none .gpt41
    llm0 llm0
    { runner0 with llmCache := setKV runner0.llmCache ("gpt-4.1", 0, none, true) llm0 }
    { runner0 with llmCache := setKV runner0.llmCache ("gpt-4.1", 0, none, false) llm0 }
    rfl rfl rfl rfl rfl

/-- Claim C6.  Under the Node contract that the optional
state-modification hook never touches the declared output key (the hook
"may touch keys other than the declared output key"), a replace-mode node
executed twice in sequence leaves under its output key exactly the single
result of the latest execution — no accumulation — while one execution of
an append-mode node whose output key holds a sequence makes that sequence
exactly one element longer. -/
theorem node_replace_append_semantics (llm : ChatOpenAI) (spec : NodeSpec)
    (invoke1 invoke2 : String → LLMOutcome) (s s1 s2 : PState)
    (hmod : ∀ f, spec.modifyState = some f →
      ∀ st r, lookupKV (f st r) spec.stateKey = lookupKV st spec.stateKey) :
    (spec.stateAppend = false →
      runNode llm spec invoke1 s = .ok s1 →
      runNode llm spec invoke2 s1 = .ok s2 →
      ∃ r2, nodeResult (makeNormalNodeChain llm spec) spec invoke2 s1 = .ok r2 ∧
        lookupKV s2 spec.stateKey = some r2)
    ∧ (spec.stateAppend = true →
      ∀ xs, lookupKV s spec.stateKey = some (Value.list xs) →
      runNode llm spec invoke1 s = .ok s1 →
      ∃ ys, lookupKV s1 spec.stateKey = some (Value.list ys) ∧
        ys.length = xs.length + 1) := by
  constructor
  · intro ha h1 h2
    cases hres : nodeResult (makeNormalNodeChain llm spec) spec invoke2 s1 with
    | error e => simp [runNode, hres] at h2
    | ok r =>
      simp [runNode, hres, ha] at h2
      refine ⟨r, rfl, ?_⟩
      rw [← h2]
      exact lookupKV_setKV_self _ spec.stateKey r
  · intro ha xs hxs h1
    cases hres : nodeResult (makeNormalNodeChain llm spec) spec invoke1 s with
    | error e => simp [runNode, hres] at h1
    | ok r =>
      have hstate : lookupKV
          (match spec.modifyState with
            | some f => f s r
            | none => s) spec.stateKey = some (Value.list xs) := by
        cases hms : spec.modifyState with
        | none => exact hxs
        | some f => rw [hmod f hms s r]; exact hxs
      simp [runNode, hres, ha, hstate] at h1
      refine ⟨xs ++ [r], ?_, by simp⟩
      rw [← h1]
      exact lookupKV_setKV_self _ spec.stateKey _

/-- Witness for claim C6: the replace-mode node run twice on `state0`
holds the single latest answer under `subgoals`, and one run of the
append-mode node extends the empty `history` sequence to length one. -/
theorem node_replace_append_semantics_witness :
    (∃ r2, nodeResult (makeNormalNodeChain llm0 specReplace) specReplace
        invokeOkText state2 = .ok r2 ∧
      lookupKV state2 "subgoals" = some r2)
    ∧ (∃ ys, lookupKV state1 "history" = some (Value.list ys) ∧
        ys.length = 1) := by
  constructor
  · exact (node_replace_append_semantics llm0 specReplace invokeOkText
      invokeOkText state0 state2 state2
      (fun f hf => Option.noConfusion hf)).1 rfl rfl rfl
  · exact (node_replace_append_semantics llm0 specAppend invokeOkText
      invokeOkText state0 state1 state1
      (fun f hf => Option.noConfusion hf)).2 rfl [] rfl rfl

/-- Claim C7.  A node whose optional state-modification hook is absent
changes at most the value under its declared output key: every other key
maps to the same value before and after a successful execution (the
projector is pure by construction, so only the final write touches the
state). -/
theorem node_frame_without_modify_hook (llm : ChatOpenAI) (spec : NodeSpec)
    (invoke : String → LLMOutcome) (s s' : PState)
    (hmod : spec.modifyState = none)
    (hrun : runNode llm spec invoke s = .ok s')
    (k : String) (hk : k ≠ spec.stateKey) :
    lookupKV s' k = lookupKV s k := by
  cases hres : nodeResult (makeNormalNodeChain llm spec) spec invoke s with
  | error e => simp [runNode, hres] at hrun
  | ok r =>
    simp only [runNode, hres, hmod] at hrun
    cases hsa : spec.stateAppend with
    | false =>
      simp only [hsa, Bool.false_eq_true, if_false] at hrun
      rw [← Except.ok.inj hrun]
      exact lookupKV_setKV_ne s spec.stateKey k r hk
    | true =>
      simp only [hsa, if_true] at hrun
      split at hrun
      · rw [← Except.ok.inj hrun]
        exact lookupKV_setKV_ne s spec.stateKey k _ hk
      · exact Except.noConfusion hrun

/-- Witness for claim C7: executing the replace-mode node on `state0`
leaves the `history` key untouched. -/
theorem node_frame_without_modify_hook_witness :
    lookupKV state2 "history" = lookupKV state0 "history" :=
  node_frame_without_modify_hook llm0 specReplace invokeOkText state0 state2
    rfl rfl "history" (by decide)
